import Mathlib

/-!
Verification of the asynchronous task pipeline of the Sailson-AI service
(`src/app.py`), shallowly embedded in Lean 4.

The embedding follows the Python source:

* `Task` models one row of the `task_queue` table.
* `update_task`, `create_task`, `get_task` embed the store helpers of the
  same names (app.py lines 343-420).
* `recover_interrupted_tasks` embeds the startup sweep (lines 293-313).
* `process_uploaded_file` embeds the extension dispatch (lines 462-490);
  decoding of well-formed payloads (PIL / pandas) is abstracted as the raw
  payload string.
* `analyze` embeds the `/analyze` handler (lines 1130-1187).
* `process_analysis_task` embeds the background unit (lines 601-935); the
  external world (Apify client construction, run start, status polls,
  dataset fetch, prompt lookup, model-response parsing) is supplied as a
  `RemoteEnv` record of outcomes.
* `task_status` embeds the `/task_status/<id>` handler (lines 1190-1203).

Machine integers do not overflow anywhere on these paths, so timestamps are
plain `Int` seconds and counters are `Nat`.
-/

namespace Sailson

/-- One row of the `task_queue` table: identity, lifecycle status, progress
string, final result, error message, timestamps. -/
structure Task where
  task_id : String
  status : String
  progress : String
  result : Option String
  error : Option String
  created_at : Int
  updated_at : Int
deriving Repr, DecidableEq

/-- Embeds `update_task(task_id, status=None, progress=None, result=None,
error=None)` (app.py 381-407) applied to the addressed row: each argument
that is `some v` contributes a `SET field = v` clause; when at least one
field is provided, `updated_at` is refreshed to the current time; when no
field is provided no SQL runs and the row is untouched. -/
def update_task (t : Task) (now : Int)
    (status progress result error : Option String) : Task :=
  if status.isNone && progress.isNone && result.isNone && error.isNone then t
  else
    { t with
      status := status.getD t.status
      progress := progress.getD t.progress
      result := match result with | some v => some v | none => t.result
      error := match error with | some v => some v | none => t.error
      updated_at := now }

/-- Embeds `create_task` (app.py 343-379): inserts a fresh row with
`status='pending'` and `progress='任务已创建'`. -/
def create_task (id : String) (now : Int) : Task :=
  { task_id := id
    status := "pending"
    progress := "任务已创建"
    result := none
    error := none
    created_at := now
    updated_at := now }

/-- The SQL filter of the startup sweep (app.py 297-301):
`status = 'processing' AND created_at > NOW() - INTERVAL '1 hour'`. -/
def sweep_selects (now : Int) (t : Task) : Bool :=
  t.status == "processing" && (now - 3600 < t.created_at)

/-- Embeds `recover_interrupted_tasks` (app.py 293-313): every selected row
receives `update_task(status='failed', error='服务重启导致任务中断',
progress='任务已中断')`. -/
def recover_interrupted_tasks (now : Int) (store : List Task) : List Task :=
  store.map fun t =>
    if sweep_selects now t then
      update_task t now (some "failed") (some "任务已中断") none
        (some "服务重启导致任务中断")
    else t

/-- Embeds `get_task` (app.py 409-420). The argument is the outcome of
`db.query_one` on the row: `.ok (some t)` a row was found, `.ok none` no
row with that id exists, `.error e` the read raised exception `e`. The
`except` clause returns `None` on any exception. -/
def get_task (dbRead : Except String (Option Task)) : Option Task :=
  match dbRead with
  | .ok t => t
  | .error _ => none

/-- Response of the `/task_status/<task_id>` route. -/
inductive StatusResponse where
  | notFound
  | snapshot (status progress : String) (result error : Option String)
deriving Repr, DecidableEq

/-- Embeds `task_status` (app.py 1190-1203): a falsy `get_task` result maps
to the 404 `'任务不存在'` response, otherwise the four task fields are
returned. -/
def task_status (dbRead : Except String (Option Task)) : StatusResponse :=
  match get_task dbRead with
  | none => .notFound
  | some t => .snapshot t.status t.progress t.result t.error

/-- An uploaded file as read into memory by the `/analyze` handler
(app.py 1154-1162): declared filename plus raw content. -/
structure FileData where
  filename : String
  content : String
deriving Repr, DecidableEq

inductive FileMode where
  | image
  | text
  | err
deriving Repr, DecidableEq

/-- Embeds `process_uploaded_file` (app.py 462-490): dispatch on the
lower-cased filename extension (`fname = file_data['filename'].lower()`,
modelled on the character list with ASCII lowering). Image extensions
yield the `IMAGE` mode, `.xlsx`/`.csv` the `TEXT` mode, anything else the
`ERROR` mode with message `'不支持的文件格式'`. Decoding a well-formed
payload (PIL image open, pandas table rendering) is abstracted as the raw
content string. -/
def process_uploaded_file (fd : FileData) : FileMode × String :=
  let fname := fd.filename.data.map Char.toLower
  if ".png".data.isSuffixOf fname || ".jpg".data.isSuffixOf fname
      || ".jpeg".data.isSuffixOf fname || ".webp".data.isSuffixOf fname then
    (.image, fd.content)
  else if ".xlsx".data.isSuffixOf fname || ".csv".data.isSuffixOf fname then
    (.text, fd.content)
  else
    (.err, "不支持的文件格式")

/-- The lowered filename used for extension dispatch:
`fname = file_data['filename'].lower()` (app.py 469). -/
def lower_name (s : String) : List Char := s.data.map Char.toLower

/-- The image-extension test of app.py 473:
`fname.endswith(('.png', '.jpg', '.jpeg', '.webp'))`. -/
def is_image_name (s : String) : Bool :=
  ".png".data.isSuffixOf (lower_name s) || ".jpg".data.isSuffixOf (lower_name s)
    || ".jpeg".data.isSuffixOf (lower_name s)
    || ".webp".data.isSuffixOf (lower_name s)

/-- The tabular-extension test of app.py 477:
`fname.endswith(('.xlsx', '.csv'))`. -/
def is_tabular_name (s : String) : Bool :=
  ".xlsx".data.isSuffixOf (lower_name s)
    || ".csv".data.isSuffixOf (lower_name s)

/-- Synchronous response of the `/analyze` route: issued task id, reported
initial status, or an HTTP 400 error body. -/
structure AnalyzeResponse where
  task_id : Option String
  status : Option String
  http_error : Option String
deriving Repr, DecidableEq

/-- Embeds the `/analyze` handler (app.py 1130-1187). It performs no
validation of `url`/`file` presence or of the file type: apart from the
file-read failure path (`readOk = false`, HTTP 400 before any task
exists), it always allocates a task id, inserts a `pending` row via
`create_task`, schedules the background unit and returns the id. -/
def analyze (url : Option String) (file : Option FileData) (readOk : Bool)
    (new_id : String) (now : Int) (store : List Task) :
    List Task × AnalyzeResponse :=
  if file.isSome && !readOk then
    (store, { task_id := none, status := none
              http_error := some "读取文件失败" })
  else
    (store ++ [create_task new_id now],
     { task_id := some new_id, status := some "pending", http_error := none })

/-- One classified item as parsed from the model's JSON array response:
a Python dict read with `.get`, so every field is optional. -/
structure ClassifiedItem where
  text : Option String
  category : Option String
  sentiment : Option String
  language : Option String
  analysis : Option String
deriving Repr, DecidableEq, Inhabited

/-- The terminal vocabulary of the remote run status (app.py 762):
`['SUCCEEDED', 'FAILED', 'ABORTED', 'TIMED-OUT']`. -/
def terminal_statuses : List String :=
  ["SUCCEEDED", "FAILED", "ABORTED", "TIMED-OUT"]

/-- Overall wait budget of the poll loop in seconds (app.py 738). -/
def max_wait_time : Nat := 480

/-- Fixed sleep between polls in seconds (app.py 739). -/
def poll_interval : Nat := 5

/-- Embeds the poll loop (app.py 745-768): before each poll the elapsed
time is checked against the budget (`TimeoutError` when exceeded, whose
message becomes the task error); the k-th poll returns `pollStatus k`; a
terminal status exits the loop, otherwise the unit sleeps `poll_interval`
seconds and polls again. -/
def poll_loop (pollStatus : Nat → String) (k : Nat) (elapsed : Nat) :
    Except String String :=
  if _h : elapsed > max_wait_time then
    .error "等待爬虫完成超时（480秒）"
  else if pollStatus k ∈ terminal_statuses then .ok (pollStatus k)
  else poll_loop pollStatus (k + 1) (elapsed + poll_interval)
termination_by max_wait_time + 1 - elapsed
decreasing_by
  simp only [max_wait_time, poll_interval] at *
  omega

/-- Fixed batch size (app.py 830). -/
def batch_size : Nat := 50

/-- `total_batches = (len(items) + batch_size - 1) // batch_size`
(app.py 832). -/
def num_batches (n : Nat) : Nat := (n + batch_size - 1) / batch_size

/-- Embeds the batch loop's accumulation (app.py 834-857): batches are
processed in order; `classify k` is the parsed JSON array of the model
response for batch `k` (1-based), `none` modelling a parse failure. A
parsed batch extends `all_results`; a failed batch is skipped
(`continue`). -/
def run_batches (classify : Nat → Option (List ClassifiedItem))
    (total : Nat) : List ClassifiedItem :=
  (List.range total).foldl
    (fun acc k =>
      match classify (k + 1) with
      | some items => acc ++ items
      | none => acc)
    []

/-- The fixed category precedence list (app.py 864). In the terms of the
specification: 外挂作弊 = cheating, 游戏优化 = performance, 游戏Bug = bugs,
充值退款 = billing, 新模式/地图/平衡性建议 = suggestions, 其他 = other. -/
def category_order : List String :=
  ["外挂作弊", "游戏优化", "游戏Bug", "充值退款", "新模式/地图/平衡性建议", "其他"]

/-- The sort key of app.py 865:
`category_order.index(x.get('category', '其他')) if x.get('category') in
category_order else len(category_order)` — an item whose category is
present and in the list gets its index, every other item (category absent
or outside the list) gets `len(category_order)`. -/
def sort_key (c : Option String) : Nat :=
  match c with
  | some s =>
      if s ∈ category_order then category_order.indexOf s
      else category_order.length
  | none => category_order.length

def item_key (x : ClassifiedItem) : Nat := sort_key x.category

/-- The items of `items` whose key is `k`, in input order, concatenated
over `k < n`. -/
def key_buckets (items : List ClassifiedItem) (n : Nat) : List ClassifiedItem :=
  (List.range n).flatMap fun k => items.filter fun x => item_key x == k

/-- Embeds `all_results.sort(key=...)` (app.py 865). Python's `list.sort`
is a stable ascending sort by key; for a key function whose values lie in
`0 .. category_order.length`, a stable ascending sort is exactly the
concatenation, in key order, of the sublists of items having each key. -/
def assemble_sort (items : List ClassifiedItem) : List ClassifiedItem :=
  key_buckets items (category_order.length + 1)

/-- One `<tr>` of the final table (app.py 870-879); style attributes and
indentation whitespace are elided. -/
def html_row (idx : Nat) (x : ClassifiedItem) : String :=
  "<tr><td>" ++ toString idx ++ "</td><td>" ++ x.text.getD ""
    ++ "</td><td><strong>" ++ x.category.getD "" ++ "</strong></td><td>"
    ++ x.sentiment.getD "" ++ "</td><td>" ++ x.language.getD ""
    ++ "</td><td>" ++ x.analysis.getD "" ++ "</td></tr>"

/-- Embeds `for idx, item in enumerate(all_results, 1)` (app.py 869):
one row per item, indexed from `idx`. -/
def html_rows_from (idx : Nat) : List ClassifiedItem → List String
  | [] => []
  | x :: xs => html_row idx x :: html_rows_from (idx + 1) xs

def html_rows (items : List ClassifiedItem) : List String :=
  html_rows_from 1 items

/-- The final artifact (app.py 881-897); header markup elided to a fixed
prefix/suffix. -/
def render_table (items : List ClassifiedItem) : String :=
  "<table>" ++ String.join (html_rows items) ++ "</table>"

/-- Outcomes of every external interaction of one background run. -/
structure RemoteEnv where
  /-- `some e`: the in-thread `ApifyClient` constructor raised `e`
  (app.py 620-623); `none`: construction succeeded or no token is set. -/
  initError : Option String
  /-- whether `thread_apify_client` is non-`None` when the URL branch is
  reached (app.py 660). -/
  hasClient : Bool
  /-- outcome of starting the remote run (app.py 682-730): `.ok runId`, or
  `.error msg` covering the 30s start timeout, a non-201 response and any
  transport failure, with `msg` the already-formatted error message. -/
  start : Except String String
  /-- status string returned by the k-th poll of the run. -/
  pollStatus : Nat → String
  /-- fetched dataset items (their text contents); `none` models a missing
  `defaultDatasetId` (app.py 797-802, error `未找到 dataset ID`); a
  dataset-fetch failure (app.py 806-816) also fails the task, with a
  `获取数据失败:`-prefixed message, and is abstracted onto this same
  branch — no theorem depends on that message. -/
  dataset : Option (List String)
  /-- `get_prompt('sentiment', project)`; `none` models the falsy template
  of an unconfigured project (app.py 824-827). -/
  template : Option String
  /-- parsed model response for batch `k` (1-based): `none` = JSON parse
  failure, the batch is dropped (app.py 848-857). -/
  classify : Nat → Option (List ClassifiedItem)

/-- The URL branch of the background unit (app.py 656-901) followed by the
shared completion tail (app.py 917-926), as the sequence of `update_task`
calls applied to the task's row. -/
def process_url_branch (t1 : Task) (now : Int) (env : RemoteEnv) : Task :=
  let t2 := update_task t1 now none (some "正在抓取社媒数据...") none none
  if !env.hasClient then
    update_task t2 now (some "failed") none none
      (some "APIFY_TOKEN 未配置或初始化失败")
  else
    match env.start with
    | .error e => update_task t2 now (some "failed") none none (some e)
    | .ok _ =>
      let t3 := update_task t2 now none
        (some "等待爬虫完成（约30-60秒）...") none none
      match poll_loop env.pollStatus 0 0 with
      | .error msg => update_task t3 now (some "failed") none none (some msg)
      | .ok st =>
        if st ≠ "SUCCEEDED" then
          update_task t3 now (some "failed") none none
            (some ("爬虫任务失败: " ++ st))
        else
          match env.dataset with
          | none =>
              update_task t3 now (some "failed") none none
                (some "未找到 dataset ID")
          | some items =>
            if items.isEmpty then
              update_task t3 now (some "failed") none none
                (some "未发现公开评论")
            else
              match env.template with
              | none =>
                  update_task t3 now (some "failed") none none
                    (some "该项目提示词尚未配置")
              | some _ =>
                let total := num_batches items.length
                let tLoop := (List.range total).foldl
                  (fun t k =>
                    update_task t now none
                      (some ("AI 分析中：第 " ++ toString (k + 1) ++ "/"
                        ++ toString total ++ " 批...")) none none)
                  t3
                let all_results := run_batches env.classify total
                let html := render_table (assemble_sort all_results)
                update_task tLoop now (some "completed") (some "分析完成！")
                  (some html) none

/-- The file branch of the background unit (app.py 638-653). An `ERROR`
mode fails the task with the returned message. Otherwise the source next
evaluates `file_data.filename` (app.py 653) — but `file_data` is the plain
dict built at app.py 1157-1161, so this attribute access raises
`AttributeError("'dict' object has no attribute 'filename'")`, which the
outer handler (app.py 928-935) converts to a failed task with the
`系统错误:`-prefixed message. -/
def process_file_branch (t1 : Task) (now : Int) (fd : FileData) : Task :=
  let t2 := update_task t1 now none (some "正在处理文件...") none none
  match (process_uploaded_file fd).1 with
  | .err =>
      update_task t2 now (some "failed") none none
        (some (process_uploaded_file fd).2)
  | _ =>
      update_task t2 now (some "failed") (some "任务失败") none
        (some "系统错误: 'dict' object has no attribute 'filename'")

/-- Embeds `process_analysis_task` (app.py 601-935) as the net effect of
its `update_task` calls on the task's row. `save_history` / `log_usage`
write to other tables and never touch the row; database writes are
modelled as reliable. -/
def process_analysis_task (t0 : Task) (now : Int) (url : Option String)
    (file : Option FileData) (env : RemoteEnv) : Task :=
  match env.initError with
  | some e =>
      update_task t0 now (some "failed") none none
        (some ("Apify 客户端初始化失败: " ++ e))
  | none =>
    let t1 := update_task t0 now (some "processing") (some "正在初始化...")
      none none
    match file with
    | some fd => process_file_branch t1 now fd
    | none =>
      match url with
      | some _ => process_url_branch t1 now env
      | none =>
          update_task t1 now (some "failed") none none
            (some "请提供链接或文件")

/-! ## Store-level properties -/

/-- If `process_uploaded_file` reports the `ERROR` mode, the accompanying
message is the fixed unsupported-format string (app.py 485). -/
lemma process_uploaded_file_err_msg (fd : FileData)
    (h : (process_uploaded_file fd).1 = FileMode.err) :
    (process_uploaded_file fd).2 = "不支持的文件格式" := by
  simp only [process_uploaded_file] at h ⊢
  split at h
  · simp_all
  · split at h <;> simp_all

/-- A filename whose extension passes neither the image test (app.py 473)
nor the tabular test (app.py 477) is dispatched to the `ERROR` mode
(app.py 485). -/
lemma process_uploaded_file_err_of (fd : FileData)
    (himg : is_image_name fd.filename = false)
    (htab : is_tabular_name fd.filename = false) :
    (process_uploaded_file fd).1 = FileMode.err := by
  simp only [is_image_name, lower_name] at himg
  simp only [is_tabular_name, lower_name] at htab
  simp [process_uploaded_file, himg, htab]

/-- C9: `update_task` is a partial update: a field given as `None` keeps
its previous value, a provided field is overwritten with the provided
value, and the row's identity and creation time are never touched. -/
theorem c9_partial_update (t : Task) (now : Int) (s p r e : Option String) :
    (s = none → (update_task t now s p r e).status = t.status)
    ∧ (p = none → (update_task t now s p r e).progress = t.progress)
    ∧ (r = none → (update_task t now s p r e).result = t.result)
    ∧ (e = none → (update_task t now s p r e).error = t.error)
    ∧ (∀ v, s = some v → (update_task t now s p r e).status = v)
    ∧ (∀ v, p = some v → (update_task t now s p r e).progress = v)
    ∧ (∀ v, r = some v → (update_task t now s p r e).result = some v)
    ∧ (∀ v, e = some v → (update_task t now s p r e).error = some v)
    ∧ (update_task t now s p r e).task_id = t.task_id
    ∧ (update_task t now s p r e).created_at = t.created_at := by
  cases s <;> cases p <;> cases r <;> cases e <;> simp [update_task]

/-- Witness for C9 at a concrete row: an update providing only a progress
string leaves the status untouched. -/
theorem c9_partial_update_witness :
    (update_task ⟨"w", "pending", "任务已创建", none, none, 0, 0⟩ 5
      none (some "正在初始化...") none none).status = "pending" :=
  (c9_partial_update ⟨"w", "pending", "任务已创建", none, none, 0, 0⟩ 5
    none (some "正在初始化...") none none).1 rfl

/-- C2 (counterexample): `update_task` has no terminal-state guard — a
subsequent update that provides a status value changes the status of a
`completed` row. -/
theorem c2_counterexample :
    (update_task ⟨"t2", "completed", "分析完成！", some "artifact", none, 0, 0⟩
      5 (some "processing") none none none).status = "processing"
    ∧ (update_task ⟨"t2", "completed", "分析完成！", some "artifact", none, 0, 0⟩
      5 (some "processing") none none none).status ≠ "completed" := by
  constructor
  · rfl
  · decide

/-- C2 (amended): the store's update applies any provided status
unconditionally — terminal states included — and leaves the status
unchanged exactly when no status value is provided. -/
theorem c2_amended (t : Task) (now : Int) (p r e : Option String) :
    ((update_task t now none p r e).status = t.status)
    ∧ ∀ s, (update_task t now (some s) p r e).status = s := by
  constructor
  · cases p <;> cases r <;> cases e <;> simp [update_task]
  · intro s
    simp [update_task]

/-- C3: the startup sweep's filter is `created_at > NOW() - INTERVAL
'1 hour'`, which selects `processing` rows NEWER than one hour. At
`now = 7200` a `processing` row created two hours ago (`created_at = 0`)
is left untouched, while a row five minutes old (`created_at = 6900`) is
transitioned to `failed` with the interrupted-by-restart error — the
opposite of the specified staleness sweep. -/
theorem c3_sweep_inverted :
    ((recover_interrupted_tasks 7200
        [⟨"old", "processing", "进行中", none, none, 0, 0⟩,
         ⟨"young", "processing", "进行中", none, none, 6900, 6900⟩]).map
        Task.status = ["processing", "failed"])
    ∧ ((recover_interrupted_tasks 7200
        [⟨"old", "processing", "进行中", none, none, 0, 0⟩,
         ⟨"young", "processing", "进行中", none, none, 6900, 6900⟩]).map
        Task.error = [none, some "服务重启导致任务中断"]) := by
  constructor <;> rfl

/-- C10: `get_task` maps a raised store read (`.error e`) to the same
`none` that an unknown id (`.ok none`) produces, so the status route
answers the identical 404 not-found response in both situations — in
particular for a task that exists but whose store read failed. -/
theorem c10_store_failure_conflated (e : String) :
    get_task (.error e) = none
    ∧ get_task (.ok none) = none
    ∧ task_status (.error e) = StatusResponse.notFound
    ∧ task_status (.ok none) = StatusResponse.notFound
    ∧ task_status (.error e) = task_status (.ok none) :=
  ⟨rfl, rfl, rfl, rfl, rfl⟩

/-! ## Submission-path properties -/

/-- C1 (counterexample): a submission with neither a URL nor a file is
not rejected synchronously — the handler issues a task id, reports no
error, and writes a `pending` row to the store. -/
theorem c1_counterexample :
    ((analyze none none true "t-0" 0 []).2.task_id = some "t-0")
    ∧ (analyze none none true "t-0" 0 []).2.http_error = none
    ∧ (analyze none none true "t-0" 0 []).1 = [create_task "t-0" 0] :=
  ⟨rfl, rfl, rfl⟩

/-- C1 (amended): a submission with neither source is accepted — a task id
is issued and a `pending` row created — and the background unit then marks
the task `failed` with the `请提供链接或文件` error. -/
theorem c1_missing_source_deferred (id : String) (now now2 : Int)
    (store : List Task) (env : RemoteEnv) (hinit : env.initError = none) :
    (analyze none none true id now store).1 = store ++ [create_task id now]
    ∧ (analyze none none true id now store).2.task_id = some id
    ∧ (analyze none none true id now store).2.http_error = none
    ∧ (process_analysis_task (create_task id now) now2 none none env).status
        = "failed"
    ∧ (process_analysis_task (create_task id now) now2 none none env).error
        = some "请提供链接或文件" := by
  refine ⟨rfl, rfl, rfl, ?_, ?_⟩ <;>
    simp [process_analysis_task, hinit, update_task, create_task]

/-- Witness for C1's amended statement at a concrete id and environment. -/
theorem c1_missing_source_deferred_witness :
    (process_analysis_task (create_task "t-1" 0) 1 none none
      ⟨none, false, .error "x", fun _ => "RUNNING", none, none,
        fun _ => none⟩).status = "failed" :=
  (c1_missing_source_deferred "t-1" 0 1 []
    ⟨none, false, .error "x", fun _ => "RUNNING", none, none,
      fun _ => none⟩ rfl).2.2.2.1

/-- C8 (counterexample): a submission carrying `notes.txt`, whose
extension is neither an image nor a tabular type, is not rejected
synchronously — contrary to the claim, the `/analyze` handler
(app.py 1130-1187) never inspects the filename: it issues a task id,
reports no error, and writes a `pending` row before any format check
runs. -/
theorem c8_counterexample :
    ((analyze none (some ⟨"notes.txt", "hello"⟩) true "t-8" 0 []).2.task_id
        = some "t-8")
    ∧ (analyze none (some ⟨"notes.txt", "hello"⟩) true "t-8" 0 []).2.http_error
        = none
    ∧ (analyze none (some ⟨"notes.txt", "hello"⟩) true "t-8" 0 []).1
        = [create_task "t-8" 0] :=
  ⟨rfl, rfl, rfl⟩

/-- C8 (amended): for every file payload whose filename extension is
neither an image type (app.py 473) nor a tabular type (app.py 477), the
unsupported-format check runs in the background unit, not on the
submission path: the file is dispatched to the `ERROR` mode, yet the
`/analyze` handler (app.py 1130-1187) still issues a task id, writes a
`pending` row and reports no error — `process_uploaded_file` is only
called from the background unit (app.py 641), which then marks the task
`failed` with the `不支持的文件格式` error (app.py 643-645). -/
theorem c8_unsupported_deferred (fd : FileData) (t0 : Task) (now now2 : Int)
    (id : String) (store : List Task) (env : RemoteEnv)
    (himg : is_image_name fd.filename = false)
    (htab : is_tabular_name fd.filename = false)
    (hinit : env.initError = none) :
    (process_uploaded_file fd).1 = FileMode.err
    ∧ (analyze none (some fd) true id now store).1 = store ++ [create_task id now]
    ∧ (analyze none (some fd) true id now store).2.task_id = some id
    ∧ (analyze none (some fd) true id now store).2.http_error = none
    ∧ (process_analysis_task t0 now2 none (some fd) env).status = "failed"
    ∧ (process_analysis_task t0 now2 none (some fd) env).error
        = some "不支持的文件格式" := by
  have hext := process_uploaded_file_err_of fd himg htab
  refine ⟨hext, rfl, rfl, rfl, ?_, ?_⟩ <;>
    simp [process_analysis_task, process_file_branch, hinit, hext,
      process_uploaded_file_err_msg fd hext, update_task]

/-- Witness for C8's amended statement: `notes.txt` matches neither
extension list, and the background unit fails its task with the
unsupported-format error. -/
theorem c8_unsupported_deferred_witness :
    (process_analysis_task ⟨"t-8", "pending", "任务已创建", none, none, 0, 0⟩
      1 none (some ⟨"notes.txt", "hello"⟩)
      ⟨none, false, .error "x", fun _ => "RUNNING", none, none,
        fun _ => none⟩).error = some "不支持的文件格式" :=
  (c8_unsupported_deferred ⟨"notes.txt", "hello"⟩
    ⟨"t-8", "pending", "任务已创建", none, none, 0, 0⟩ 1 1 "t-8" []
    ⟨none, false, .error "x", fun _ => "RUNNING", none, none,
      fun _ => none⟩ (by decide) (by decide) rfl).2.2.2.2.2

/-! ## File-branch behaviour -/

/-- C5: for every file payload whose extension is supported (mode `IMAGE`
or `TEXT`), the background unit does NOT classify the content and complete:
after building the pseudo-batch content it evaluates `file_data.filename`
on the dict built by the handler (app.py 653), raising `AttributeError`,
and the outer handler marks the task `failed` with the
`系统错误:`-prefixed message; no result is ever produced. -/
theorem c5_file_branch_fails (t0 : Task) (now : Int) (url : Option String)
    (fd : FileData) (env : RemoteEnv)
    (hinit : env.initError = none)
    (hsupported : (process_uploaded_file fd).1 ≠ FileMode.err) :
    (process_analysis_task t0 now url (some fd) env).status = "failed"
    ∧ (process_analysis_task t0 now url (some fd) env).error
        = some "系统错误: 'dict' object has no attribute 'filename'"
    ∧ (process_analysis_task t0 now url (some fd) env).result = t0.result := by
  rcases hm : (process_uploaded_file fd).1 with _ | _ | _
  · refine ⟨?_, ?_, ?_⟩ <;>
      simp [process_analysis_task, process_file_branch, hinit, hm, update_task]
  · refine ⟨?_, ?_, ?_⟩ <;>
      simp [process_analysis_task, process_file_branch, hinit, hm, update_task]
  · exact absurd hm hsupported

/-- Witness for C5 at a concrete CSV upload: the task ends `failed`. -/
theorem c5_file_branch_fails_witness :
    (process_analysis_task ⟨"t-5", "pending", "任务已创建", none, none, 0, 0⟩
      1 none (some ⟨"data.csv", "a,b"⟩)
      ⟨none, false, .error "x", fun _ => "RUNNING", none, none,
        fun _ => none⟩).status = "failed" :=
  (c5_file_branch_fails ⟨"t-5", "pending", "任务已创建", none, none, 0, 0⟩
    1 none ⟨"data.csv", "a,b"⟩
    ⟨none, false, .error "x", fun _ => "RUNNING", none, none,
      fun _ => none⟩ rfl (by decide)).1

/-! ## Projection helpers for `update_task` -/

/-- An update whose `error` argument is not provided never changes the
row's error field. -/
lemma update_task_error_of_none (t : Task) (now : Int)
    (s p r : Option String) : (update_task t now s p r none).error = t.error := by
  cases s <;> cases p <;> cases r <;> simp [update_task]

/-- An update whose `result` argument is not provided never changes the
row's result field. -/
lemma update_task_result_of_none (t : Task) (now : Int)
    (s p e : Option String) : (update_task t now s p none e).result = t.result := by
  cases s <;> cases p <;> cases e <;> simp [update_task]

/-- The per-batch progress updates of the batch loop leave the error
field untouched. -/
lemma foldl_progress_error (l : List Nat) (t : Task) (now : Int)
    (f : Nat → String) :
    (l.foldl (fun t k => update_task t now none (some (f k)) none none) t).error
      = t.error := by
  induction l generalizing t with
  | nil => rfl
  | cons a l ih =>
      simp only [List.foldl_cons]
      rw [ih, update_task_error_of_none]

/-! ## Poll-loop lemmas -/

/-- Fuel-indexed form: a successful exit of the poll loop only ever
returns a terminal status. -/
lemma poll_loop_ok_terminal_aux (ps : Nat → String) :
    ∀ (n k elapsed : Nat) (s : String), max_wait_time + 1 - elapsed ≤ n →
      poll_loop ps k elapsed = .ok s → s ∈ terminal_statuses := by
  intro n
  induction n with
  | zero =>
      intro k elapsed s hn h
      rw [poll_loop] at h
      split at h
      · exact absurd h (by simp)
      · simp only [max_wait_time] at *
        omega
  | succ n ih =>
      intro k elapsed s hn h
      rw [poll_loop] at h
      split at h
      · exact absurd h (by simp)
      · split at h
        · rename_i hmem
          obtain rfl : ps k = s := by injection h
          exact hmem
        · refine ih (k + 1) (elapsed + poll_interval) s ?_ h
          simp only [max_wait_time, poll_interval] at *
          omega

/-- Fuel-indexed form: if no poll ever returns a terminal status the loop
always ends in the 480-second timeout error. -/
lemma poll_loop_timeout_aux (ps : Nat → String)
    (hnt : ∀ j, ps j ∉ terminal_statuses) :
    ∀ (n k elapsed : Nat), max_wait_time + 1 - elapsed ≤ n →
      poll_loop ps k elapsed = .error "等待爬虫完成超时（480秒）" := by
  intro n
  induction n with
  | zero =>
      intro k elapsed hn
      rw [poll_loop]
      split
      · rfl
      · simp only [max_wait_time] at *
        omega
  | succ n ih =>
      intro k elapsed hn
      rw [poll_loop]
      split
      · rfl
      · split
        · rename_i hmem
          exact absurd hmem (hnt k)
        · refine ih (k + 1) (elapsed + poll_interval) ?_
          simp only [max_wait_time, poll_interval] at *
          omega

/-! ## Remote-wait budget (C7) -/

/-- C7: the poll loop runs on a fixed 5-second interval and exits only at
a terminal status or when the 480-second budget is exceeded: (1) a
successful exit carries a terminal status — a non-terminal status never
causes early exit; (2) a non-terminal poll within the budget just steps
the loop by one 5-second interval; (3) when no poll ever turns terminal
the loop ends in the fixed timeout error; and (4) in that case the
background unit resolves the task to `failed` with the timeout message
and no artifact. -/
theorem c7_poll_budget :
    (∀ (ps : Nat → String) (k elapsed : Nat) (s : String),
        poll_loop ps k elapsed = .ok s → s ∈ terminal_statuses)
    ∧ (∀ (ps : Nat → String) (k elapsed : Nat),
        ¬ elapsed > max_wait_time → ps k ∉ terminal_statuses →
        poll_loop ps k elapsed = poll_loop ps (k + 1) (elapsed + poll_interval))
    ∧ (∀ ps : Nat → String, (∀ j, ps j ∉ terminal_statuses) →
        poll_loop ps 0 0 = .error "等待爬虫完成超时（480秒）")
    ∧ (∀ (t0 : Task) (now : Int) (u rid : String) (env : RemoteEnv),
        env.initError = none → env.hasClient = true →
        env.start = .ok rid →
        (∀ j, env.pollStatus j ∉ terminal_statuses) →
        t0.result = none →
        (process_analysis_task t0 now (some u) none env).status = "failed"
        ∧ (process_analysis_task t0 now (some u) none env).error
            = some "等待爬虫完成超时（480秒）"
        ∧ (process_analysis_task t0 now (some u) none env).result = none) := by
  have hok : ∀ (ps : Nat → String) (k elapsed : Nat) (s : String),
      poll_loop ps k elapsed = .ok s → s ∈ terminal_statuses :=
    fun ps k elapsed s h =>
      poll_loop_ok_terminal_aux ps (max_wait_time + 1) k elapsed s
        (Nat.sub_le _ _) h
  have hto : ∀ ps : Nat → String, (∀ j, ps j ∉ terminal_statuses) →
      poll_loop ps 0 0 = .error "等待爬虫完成超时（480秒）" :=
    fun ps hnt =>
      poll_loop_timeout_aux ps hnt (max_wait_time + 1) 0 0 (Nat.sub_le _ _)
  refine ⟨hok, ?_, hto, ?_⟩
  · intro ps k elapsed h1 h2
    rw [poll_loop, dif_neg h1]
    simp only [if_neg h2]
  · intro t0 now u rid env hinit hcl hstart hnt hres
    have hpoll := hto env.pollStatus hnt
    refine ⟨?_, ?_, ?_⟩
    · simp [process_analysis_task, process_url_branch, hinit, hcl, hstart,
        hpoll, update_task]
    · simp [process_analysis_task, process_url_branch, hinit, hcl, hstart,
        hpoll, update_task]
    · simp only [process_analysis_task, process_url_branch, hinit, hcl,
        hstart, hpoll, Bool.not_true, Bool.false_eq_true, if_false]
      rw [update_task_result_of_none, update_task_result_of_none,
        update_task_result_of_none, update_task_result_of_none]
      exact hres

/-- Witness for C7: a remote run that keeps reporting `RUNNING` times out
with the fixed message, and the task of a concrete environment built from
it ends `failed` with that error and no result. -/
theorem c7_poll_budget_witness :
    poll_loop (fun _ => "RUNNING") 0 0 = .error "等待爬虫完成超时（480秒）"
    ∧ (process_analysis_task ⟨"t-7", "pending", "任务已创建", none, none, 0, 0⟩
        1 (some "https://example.com/post/1") none
        ⟨none, true, .ok "run-1", fun _ => "RUNNING", none, none,
          fun _ => none⟩).error = some "等待爬虫完成超时（480秒）" :=
  ⟨c7_poll_budget.2.2.1 (fun _ => "RUNNING")
      (fun _ => (by decide : ("RUNNING" : String) ∉ terminal_statuses)),
   (c7_poll_budget.2.2.2 ⟨"t-7", "pending", "任务已创建", none, none, 0, 0⟩
      1 "https://example.com/post/1" "run-1"
      ⟨none, true, .ok "run-1", fun _ => "RUNNING", none, none,
        fun _ => none⟩ rfl rfl rfl
      (fun _ => (by decide : ("RUNNING" : String) ∉ terminal_statuses))
      rfl).2.1⟩

/-! ## Batch accumulation (C4) -/

/-- The batch loop accumulates exactly the parsed batches, in order: a
batch whose response fails to parse contributes nothing. -/
lemma run_batches_eq (classify : Nat → Option (List ClassifiedItem)) :
    ∀ n, run_batches classify n
      = (List.range n).flatMap fun k => (classify (k + 1)).getD [] := by
  intro n
  induction n with
  | zero => rfl
  | succ n ih =>
      simp only [run_batches] at ih ⊢
      rw [List.range_succ, List.foldl_append, List.flatMap_append, ih]
      simp only [List.foldl_cons, List.foldl_nil]
      cases hc : classify (n + 1) <;> simp [hc]

/-- C4: for every URL task, a batch whose model response fails to parse is
dropped whole while the loop continues: the accumulated results are the
concatenation of exactly the successfully parsed batches ((1), with a
failed batch `k` contributing `[]`); under a successful fetch the task
reaches `completed` with the artifact rendered from those results (2); and
when every batch fails to parse the accumulation is empty (3) — by (2) the
task then still completes, with an empty artifact. -/
theorem c4_batch_independence :
    (∀ (classify : Nat → Option (List ClassifiedItem)) (n : Nat),
        run_batches classify n
          = (List.range n).flatMap fun k => (classify (k + 1)).getD [])
    ∧ (∀ (t0 : Task) (now : Int) (u rid tpl : String) (env : RemoteEnv)
        (items : List String),
        env.initError = none → env.hasClient = true →
        env.start = .ok rid →
        poll_loop env.pollStatus 0 0 = .ok "SUCCEEDED" →
        env.dataset = some items → items ≠ [] →
        env.template = some tpl →
        (process_analysis_task t0 now (some u) none env).status = "completed"
        ∧ (process_analysis_task t0 now (some u) none env).result
            = some (render_table (assemble_sort
                (run_batches env.classify (num_batches items.length))))
        ∧ (process_analysis_task t0 now (some u) none env).error = t0.error)
    ∧ (∀ (classify : Nat → Option (List ClassifiedItem)) (n : Nat),
        (∀ k, classify k = none) → run_batches classify n = []) := by
  refine ⟨fun classify n => run_batches_eq classify n, ?_, ?_⟩
  · intro t0 now u rid tpl env items hinit hcl hstart hpoll hds hne htpl
    have hemp : items.isEmpty = false := by
      simpa [List.isEmpty_iff] using hne
    refine ⟨?_, ?_, ?_⟩
    · simp [process_analysis_task, process_url_branch, hinit, hcl, hstart,
        hpoll, hds, hemp, htpl, update_task]
    · simp [process_analysis_task, process_url_branch, hinit, hcl, hstart,
        hpoll, hds, hemp, htpl, update_task]
    · simp only [process_analysis_task, process_url_branch, hinit, hcl,
        hstart, hpoll, hds, hemp, htpl, Bool.not_true, Bool.false_eq_true,
        if_false, ne_eq, not_true_eq_false, Bool.false_eq_true, if_false,
        List.isEmpty_eq_false]
      rw [update_task_error_of_none, foldl_progress_error,
        update_task_error_of_none, update_task_error_of_none,
        update_task_error_of_none]
  · intro classify n hall
    rw [run_batches_eq]
    simp [hall]

/-- Witness for C4 at a concrete environment with three fetched records
and a single batch whose response fails to parse: the task completes with
the empty artifact. -/
theorem c4_batch_independence_witness :
    (process_analysis_task ⟨"t-4", "pending", "任务已创建", none, none, 0, 0⟩
        1 (some "https://example.com/post/1") none
        ⟨none, true, .ok "run-1", fun _ => "SUCCEEDED",
          some ["a", "b", "c"], some "tpl", fun _ => none⟩).status
      = "completed"
    ∧ run_batches (fun _ => none) 1 = [] :=
  ⟨(c4_batch_independence.2.1 ⟨"t-4", "pending", "任务已创建", none, none, 0, 0⟩
      1 "https://example.com/post/1" "run-1" "tpl"
      ⟨none, true, .ok "run-1", fun _ => "SUCCEEDED",
        some ["a", "b", "c"], some "tpl", fun _ => none⟩
      ["a", "b", "c"] rfl rfl rfl
      (by rw [poll_loop]; simp [terminal_statuses, max_wait_time])
      rfl (by decide) rfl).1,
   c4_batch_independence.2.2 (fun _ => none) 1 (fun _ => rfl)⟩

/-! ## Result assembly (C6) -/

/-- Every sort key lies below `category_order.length + 1`. -/
lemma item_key_lt (x : ClassifiedItem) :
    item_key x < category_order.length + 1 := by
  unfold item_key sort_key
  cases x.category with
  | none => simp
  | some s =>
      by_cases h : s ∈ category_order
      · simp only [h, if_true]
        exact Nat.lt_succ_of_lt (List.indexOf_lt_length.mpr h)
      · simp [h]

lemma key_buckets_succ (its : List ClassifiedItem) (n : Nat) :
    key_buckets its (n + 1)
      = key_buckets its n ++ its.filter (fun x => item_key x == n) := by
  unfold key_buckets
  rw [List.range_succ, List.flatMap_append]
  simp

lemma mem_key_buckets {its : List ClassifiedItem} {n : Nat}
    {x : ClassifiedItem} (h : x ∈ key_buckets its n) :
    item_key x < n ∧ x ∈ its := by
  unfold key_buckets at h
  rw [List.mem_flatMap] at h
  obtain ⟨k, hk, hx⟩ := h
  rw [List.mem_filter] at hx
  obtain ⟨hxi, hkey⟩ := hx
  rw [List.mem_range] at hk
  simp only [beq_iff_eq] at hkey
  exact ⟨hkey ▸ hk, hxi⟩

/-- The bucket concatenation is sorted by key. -/
lemma key_buckets_sorted (its : List ClassifiedItem) :
    ∀ n, List.Sorted (· ≤ ·) ((key_buckets its n).map item_key) := by
  intro n
  induction n with
  | zero => simp [key_buckets]
  | succ n ih =>
      rw [key_buckets_succ, List.map_append]
      refine List.pairwise_append.mpr ⟨ih, ?_, ?_⟩
      · refine List.pairwise_of_forall_mem_list ?_
        intro a ha b hb
        rw [List.mem_map] at ha hb
        obtain ⟨x, hx, rfl⟩ := ha
        obtain ⟨y, hy, rfl⟩ := hb
        rw [List.mem_filter] at hx hy
        simp only [beq_iff_eq] at hx hy
        rw [hx.2, hy.2]
      · intro a ha b hb
        rw [List.mem_map] at ha hb
        obtain ⟨x, hx, rfl⟩ := ha
        obtain ⟨y, hy, rfl⟩ := hb
        have hxn := (mem_key_buckets hx).1
        rw [List.mem_filter] at hy
        simp only [beq_iff_eq] at hy
        rw [hy.2]
        exact Nat.le_of_lt hxn

/-- Filtering the bucket concatenation at one key recovers exactly the
input's items with that key, in input order (the stability property). -/
lemma key_buckets_filter (its : List ClassifiedItem) :
    ∀ n k, (key_buckets its n).filter (fun x => item_key x == k)
      = if k < n then its.filter (fun x => item_key x == k) else [] := by
  intro n
  induction n with
  | zero => intro k; simp [key_buckets]
  | succ n ih =>
      intro k
      rw [key_buckets_succ, List.filter_append, ih]
      rcases Nat.lt_trichotomy k n with h | h | h
      · rw [if_pos h, if_pos (Nat.lt_succ_of_lt h)]
        have hnil : (its.filter (fun x => item_key x == n)).filter
            (fun x => item_key x == k) = [] := by
          rw [List.filter_filter]
          refine List.filter_eq_nil_iff.mpr ?_
          intro a _
          simp only [Bool.and_eq_true, beq_iff_eq, not_and]
          omega
        rw [hnil, List.append_nil]
      · subst h
        rw [if_neg (by omega), if_pos (by omega), List.filter_filter]
        simp [Bool.and_self]
      · rw [if_neg (by omega), if_neg (by omega)]
        have hnil : (its.filter (fun x => item_key x == n)).filter
            (fun x => item_key x == k) = [] := by
          rw [List.filter_filter]
          refine List.filter_eq_nil_iff.mpr ?_
          intro a _
          simp only [Bool.and_eq_true, beq_iff_eq, not_and]
          omega
        rw [hnil]
        rfl

lemma assemble_sort_filter (its : List ClassifiedItem) (k : Nat) :
    (assemble_sort its).filter (fun x => item_key x == k)
      = its.filter (fun x => item_key x == k) := by
  unfold assemble_sort
  rw [key_buckets_filter]
  by_cases h : k < category_order.length + 1
  · rw [if_pos h]
  · rw [if_neg h]
    symm
    refine List.filter_eq_nil_iff.mpr ?_
    intro x _
    have := item_key_lt x
    simp only [beq_iff_eq]
    omega

/-- The assembled list is a permutation of the input: one output item per
input item. -/
lemma assemble_sort_perm (its : List ClassifiedItem) :
    (assemble_sort its).Perm its := by
  rw [List.perm_iff_count]
  intro a
  have hp : (fun x => item_key x == item_key a) a = true := by simp
  have h1 := @List.count_filter _ _ _ (fun x => item_key x == item_key a) a
    (assemble_sort its) hp
  have h2 := @List.count_filter _ _ _ (fun x => item_key x == item_key a) a
    its hp
  rw [← h1, assemble_sort_filter, h2]

/-- The row renderer enumerates the items from index 1 in order. -/
lemma html_rows_from_eq (its : List ClassifiedItem) :
    ∀ n, html_rows_from n its
      = List.zipWith html_row (List.range' n its.length) its := by
  induction its with
  | nil => intro n; rfl
  | cons x xs ih =>
      intro n
      simp only [html_rows_from, List.length_cons, List.range'_succ,
        List.zipWith_cons_cons]
      rw [ih]

/-- C6: the Result Assembler (1) orders items by the fixed category
precedence (their key sequence is ascending), where (2) a declared
category keys strictly below `len(category_order)` and (3) any category
outside the declared list keys exactly `len(category_order)` — hence
sorts after every declared category; (4) items with equal keys keep
their relative input order (stability, as the filter characterisation),
(5) the output is a permutation of the input, (6) rendering emits one row
per item in sorted order with a 1-based index; and (7) on the categories
[other, cheating, bugs, cheating] the order becomes
[cheating, cheating, bugs, other] with the two cheating items in their
original relative order. -/
theorem c6_assembler :
    (∀ its : List ClassifiedItem,
        List.Sorted (· ≤ ·) ((assemble_sort its).map item_key))
    ∧ (∀ c, c ∈ category_order →
        sort_key (some c) < category_order.length)
    ∧ (∀ c, c ∉ category_order →
        sort_key (some c) = category_order.length)
    ∧ (∀ (its : List ClassifiedItem) (k : Nat),
        (assemble_sort its).filter (fun x => item_key x == k)
          = its.filter (fun x => item_key x == k))
    ∧ (∀ its : List ClassifiedItem, (assemble_sort its).Perm its)
    ∧ (∀ its : List ClassifiedItem,
        html_rows its = List.zipWith html_row (List.range' 1 its.length) its)
    ∧ (assemble_sort
        [⟨some "a", some "其他", none, none, none⟩,
         ⟨some "b", some "外挂作弊", none, none, none⟩,
         ⟨some "c", some "游戏Bug", none, none, none⟩,
         ⟨some "d", some "外挂作弊", none, none, none⟩]
        = [⟨some "b", some "外挂作弊", none, none, none⟩,
           ⟨some "d", some "外挂作弊", none, none, none⟩,
           ⟨some "c", some "游戏Bug", none, none, none⟩,
           ⟨some "a", some "其他", none, none, none⟩]) := by
  refine ⟨fun its => key_buckets_sorted its _, ?_, ?_,
    assemble_sort_filter, assemble_sort_perm,
    fun its => html_rows_from_eq its 1, ?_⟩
  · intro c hc
    fin_cases hc <;> decide
  · intro c hc
    simp [sort_key, hc]
  · decide

/-- Witness for C6: the declared category 外挂作弊 (cheating) keys below
the length of the precedence list; an undeclared category keys exactly at
it, hence after all declared ones. -/
theorem c6_assembler_witness :
    sort_key (some "外挂作弊") < category_order.length
    ∧ sort_key (some "版本问题") = category_order.length :=
  ⟨c6_assembler.2.1 "外挂作弊" (by decide),
   c6_assembler.2.2.1 "版本问题" (by decide)⟩

end Sailson
